import Mathlib

/-!
Shallow embedding of the GPS tracking core of the SmartTourist front end:
the `GPSTracker` class of `gps-tracker.js` together with the `api` client
object of `src/api.js`.

Modelling conventions:
* JavaScript numbers are modelled as real numbers (`ℝ`); `Math.sin`,
  `Math.cos`, `Math.sqrt` and `Math.atan2` become `Real.sin`, `Real.cos`,
  `Real.sqrt` and a two-argument arctangent defined through `Complex.arg`.
* `null`/`undefined` members are `Option`s.
* The mutable `GPSTracker` object is a `TrackerState` record; each method
  becomes a function from the state (plus the platform inputs the method
  consumes) to the new state, paired with the list of observable
  notifications it emits (`Event`).
* Console logging is not an observable notification; `showWarning`,
  `emitPositionUpdate` and a call to `savePositionToBackend` are.
-/

namespace GPS

/-- Math.atan2 on real arguments via the complex argument function:
`atan2 y x` is the angle of the point `(x, y)`, lying in `(-π, π]`. -/
noncomputable def atan2 (y x : ℝ) : ℝ := Complex.arg ((x : ℂ) + (y : ℂ) * Complex.I)

/-- GPSTracker.calculateDistance (gps-tracker.js lines 163-176): the haversine
distance in meters between two latitude/longitude pairs given in degrees,
on a sphere of radius `6371e3` meters. -/
noncomputable def calculateDistance (lat1 lon1 lat2 lon2 : ℝ) : ℝ :=
  let R : ℝ := 6371e3
  let φ1 := lat1 * Real.pi / 180
  let φ2 := lat2 * Real.pi / 180
  let Δφ := (lat2 - lat1) * Real.pi / 180
  let Δlam := (lon2 - lon1) * Real.pi / 180
  let a := Real.sin (Δφ / 2) * Real.sin (Δφ / 2) +
      Real.cos φ1 * Real.cos φ2 * Real.sin (Δlam / 2) * Real.sin (Δlam / 2)
  let c := 2 * atan2 (Real.sqrt a) (Real.sqrt (1 - a))
  R * c

/-- The haversine great-circle distance exactly as the specification words it
(spec section 4.1): with φ the latitudes in radians and Δφ, Δlam the
coordinate differences in radians, a = sin²(Δφ/2) + cos φ1 · cos φ2 ·
sin²(Δlam/2), c = 2 · atan2(√a, √(1−a)), distance = R · c on a sphere of
radius 6,371,000 meters. Kept separate from `calculateDistance` so that the
source formula can be compared against the specification's wording. -/
noncomputable def haversineSpec (lat1 lon1 lat2 lon2 : ℝ) : ℝ :=
  let R : ℝ := 6371000
  let φ1 := Real.pi / 180 * lat1
  let φ2 := Real.pi / 180 * lat2
  let Δφ := Real.pi / 180 * (lat2 - lat1)
  let Δlam := Real.pi / 180 * (lon2 - lon1)
  let a := Real.sin (Δφ / 2) ^ 2 + Real.cos φ1 * Real.cos φ2 * Real.sin (Δlam / 2) ^ 2
  R * (2 * atan2 (Real.sqrt a) (Real.sqrt (1 - a)))

/-- The coordinate record carried by a geolocation position
(GeolocationCoordinates): latitude, longitude and accuracy always present,
the remaining fields nullable. -/
structure Coords where
  latitude : ℝ
  longitude : ℝ
  accuracy : ℝ
  altitude : Option ℝ
  altitudeAccuracy : Option ℝ
  heading : Option ℝ
  speed : Option ℝ

/-- A geolocation position: coordinates plus a timestamp. -/
structure Position where
  coords : Coords
  timestamp : ℤ

/-- The pure decision at the heart of GPSTracker.shouldSavePosition
(gps-tracker.js lines 144-160), written as a function of the two pieces of
tracker state it reads (`this.lastPosition` and `this.options.minDistance`)
and of its argument: with no last position it accepts; otherwise it accepts
exactly when the haversine distance from the last position reaches the
threshold. -/
def shouldAccept (last : Option Position) (newPosition : Position)
    (minDistance : ℝ) : Prop :=
  match last with
  | none => True
  | some lp =>
      calculateDistance lp.coords.latitude lp.coords.longitude
        newPosition.coords.latitude newPosition.coords.longitude ≥ minDistance

/-- The options record built in the GPSTracker constructor (lines 7-15). -/
structure Options where
  enableHighAccuracy : Bool
  timeout : ℕ
  maximumAge : ℕ
  updateInterval : ℕ
  minDistance : ℝ
  autoStart : Bool

/-- The option values the constructor defaults to, which are also exactly the
values the global instance is constructed with (lines 277-284). -/
def defaultOptions : Options :=
  { enableHighAccuracy := true, timeout := 10000, maximumAge := 0,
    updateInterval := 60000, minDistance := 10, autoStart := false }

/-- Result of querying the platform permission state. -/
inductive PermState
  | granted
  | denied
  | prompt

/-- The mutable fields of a GPSTracker object. `initDone` is the source's
`this.initialized` flag; `permissionState` and `intervalId` start out
unassigned (undefined), modelled as `none`. -/
structure TrackerState where
  options : Options
  watchId : Option ℕ
  lastPosition : Option Position
  isTracking : Bool
  userConsent : Bool
  initDone : Bool
  permissionState : Option PermState
  intervalId : Option ℕ

/-- State of a freshly constructed tracker (constructor, lines 5-28). -/
def initialState (opts : Options) : TrackerState :=
  { options := opts, watchId := none, lastPosition := none, isTracking := false,
    userConsent := false, initDone := false, permissionState := none,
    intervalId := none }

/-- Observable notifications emitted by the tracker: a call to
savePositionToBackend (the Reporter), the gps-position-update custom event
(emitPositionUpdate), and the warning channel (showWarning). -/
inductive Event
  | report (p : Position)
  | positionUpdate (p : Position)
  | warning (msg : String)

/-- Inputs the browser platform supplies to the tracker's initialization:
whether navigator.geolocation exists, and the result of
navigator.permissions.query (`none` means the query threw, which is the
compatibility-fallback path). -/
structure BrowserEnv where
  geoSupported : Bool
  permQuery : Option PermState

/-- GPSTracker.initialize (lines 31-62): on an unsupported platform it warns
and returns false without setting the `initialized` flag; otherwise it records
the queried permission state (or proceeds without one when the query throws),
marks initialization done and returns true. -/
def initTracker (s : TrackerState) (env : BrowserEnv) :
    TrackerState × Bool × List Event :=
  if !env.geoSupported then
    (s, false, [Event.warning "GPS is not supported by your device/browser"])
  else
    match env.permQuery with
    | some st => ({ s with permissionState := some st, initDone := true }, true, [])
    | none => ({ s with initDone := true }, true, [])

/-- The error codes of a GeolocationPositionError, as matched by the switch
in GPSTracker.handleError. -/
inductive GeoErrorCode
  | permissionDenied
  | positionUnavailable
  | timeout
  | other

/-- The message selected by the switch in GPSTracker.handleError
(lines 212-226). -/
def errorMessage : GeoErrorCode → String
  | GeoErrorCode.permissionDenied =>
      "Location permission denied. Please enable location services."
  | GeoErrorCode.positionUnavailable => "Location information unavailable."
  | GeoErrorCode.timeout => "Location request timed out."
  | GeoErrorCode.other => "Unknown location error."

/-- GPSTracker.handleError (lines 208-229): on PERMISSION_DENIED the consent
flag is cleared; in every case exactly one warning is shown via showWarning.
No other state field is touched and nothing is thrown past the handler
(the embedding is a total function). -/
def handleError (s : TrackerState) (e : GeoErrorCode) :
    TrackerState × List Event :=
  match e with
  | GeoErrorCode.permissionDenied =>
      ({ s with userConsent := false },
        [Event.warning (errorMessage GeoErrorCode.permissionDenied)])
  | GeoErrorCode.positionUnavailable =>
      (s, [Event.warning (errorMessage GeoErrorCode.positionUnavailable)])
  | GeoErrorCode.timeout => (s, [Event.warning (errorMessage GeoErrorCode.timeout)])
  | GeoErrorCode.other => (s, [Event.warning (errorMessage GeoErrorCode.other)])

/-- GPSTracker.stopTracking (lines 118-131): clear the watch if one is set,
clear the interval timer if one is set, and mark the tracker as not tracking.
Browser watch and interval ids are nonzero, so the JS truthiness test on
`this.intervalId` is the some/none test here. Nothing else is touched;
in particular `lastPosition` and `userConsent` survive a stop. -/
def stopTracking (s : TrackerState) : TrackerState :=
  let s1 := if s.watchId ≠ none then { s with watchId := none } else s
  let s2 := if s1.intervalId ≠ none then { s1 with intervalId := none } else s1
  { s2 with isTracking := false }

open Classical in
/-- GPSTracker.handlePosition (lines 134-141): if the filter accepts the new
position it becomes `lastPosition`, is reported to the backend and announced
through the position-update event; otherwise nothing happens. There is no
check that the tracker is still tracking. -/
noncomputable def handlePosition (s : TrackerState) (pos : Position) :
    TrackerState × List Event :=
  if shouldAccept s.lastPosition pos s.options.minDistance then
    ({ s with lastPosition := some pos },
      [Event.report pos, Event.positionUpdate pos])
  else
    (s, [])

/-- GPSTracker.startTracking (lines 65-115). `getPos` is the outcome the
platform delivers to the initial getCurrentPosition call; `wId` and `iId` are
the handles that watchPosition and setInterval return. The method initializes
first when the init flag is unset (ignoring the result, as the source does);
a call while already tracking returns true and changes nothing; on a
successful first fix it grants consent, stores the fix, reports it, opens the
watch, marks the tracker as tracking and starts the poll timer; on a failed
first fix it delegates to handleError and returns false. -/
def startTracking (s : TrackerState) (env : BrowserEnv)
    (getPos : Position ⊕ GeoErrorCode) (wId iId : ℕ) :
    TrackerState × Bool × List Event :=
  let ini := if s.initDone then (s, ([] : List Event))
    else ((initTracker s env).1, (initTracker s env).2.2)
  let s1 := ini.1
  if s1.isTracking then (s1, true, ini.2)
  else
    match getPos with
    | Sum.inl pos =>
        ({ s1 with
            userConsent := true
            lastPosition := some pos
            watchId := some wId
            isTracking := true
            intervalId := some iId },
          true, ini.2 ++ [Event.report pos])
    | Sum.inr e =>
        ((handleError s1 e).1, false, ini.2 ++ (handleError s1 e).2)

/-- The JSON body savePositionToBackend builds from a position
(gps-tracker.js lines 181-190): all seven coordinate fields plus the
timestamp. -/
def toLocationData (p : Position) : Coords × ℤ := (p.coords, p.timestamp)

/-- A backend response: either an acknowledgement or an object whose `error`
field is set. -/
inductive ApiResponse
  | ack
  | errorField (msg : String)

/-- The window.api client object: the method names it defines, and its
`saveLocation` member; `none` models an undefined member, whose invocation
throws a TypeError. -/
structure ApiObject where
  methodNames : List String
  saveLocation : Option (Coords × ℤ → ApiResponse)

/-- The api object defined in src/api.js lines 74-106: it defines exactly the
members get, post, patch, put, delete, setToken, clearToken and getToken, and
in particular no saveLocation member. -/
def windowApi : ApiObject :=
  { methodNames := ["get", "post", "patch", "put", "delete", "setToken",
      "clearToken", "getToken"],
    saveLocation := none }

/-- GPSTracker.savePositionToBackend (lines 179-205): build the location
payload and call window.api.saveLocation inside try/catch. A thrown error
(such as the TypeError raised by invoking a missing member) is caught, logged
and turned into `false`; a response carrying an error field gives `false`;
an acknowledgement gives `true`. The caller never sees an exception. -/
def savePositionToBackend (api : ApiObject) (p : Position) : Bool :=
  match api.saveLocation with
  | none => false
  | some f =>
      match f (toLocationData p) with
      | ApiResponse.errorField _ => false
      | ApiResponse.ack => true

/-- The state invariant of spec section 3: the subscription handle is
non-null exactly when the tracker status is Tracking. -/
def WatchInv (s : TrackerState) : Prop := s.watchId.isSome = s.isTracking

/-- A position at latitude 0, longitude 0 (the spec's known fixture). -/
def p00 : Position := ⟨⟨0, 0, 5, none, none, none, none⟩, 0⟩

/-- A position at latitude 0, longitude 1 (the spec's known fixture). -/
def p01 : Position := ⟨⟨0, 1, 5, none, none, none, none⟩, 60000⟩

/-- A tracker state as reached after a successful startTracking with the
default options: watching with handle 7, polling with handle 8, last
position recorded at (0, 0). -/
def trackingState : TrackerState :=
  { options := defaultOptions, watchId := some 7, lastPosition := some p00,
    isTracking := true, userConsent := true, initDone := true,
    permissionState := some PermState.granted, intervalId := some 8 }

theorem atan2_zero_one : atan2 0 1 = 0 := by
  unfold atan2
  norm_num

theorem atan2_sin_cos {θ : ℝ} (h1 : -Real.pi < θ) (h2 : θ ≤ Real.pi) :
    atan2 (Real.sin θ) (Real.cos θ) = θ := by
  unfold atan2
  rw [Complex.ofReal_cos, Complex.ofReal_sin]
  exact Complex.arg_cos_add_sin_mul_I ⟨h1, h2⟩

theorem calculateDistance_self (lat lon : ℝ) :
    calculateDistance lat lon lat lon = 0 := by
  unfold calculateDistance
  simp only [sub_self, zero_mul, zero_div, Real.sin_zero, mul_zero, zero_add,
    add_zero]
  rw [Real.sqrt_zero]
  norm_num
  exact atan2_zero_one

theorem calculateDistance_symm (lat1 lon1 lat2 lon2 : ℝ) :
    calculateDistance lat1 lon1 lat2 lon2 = calculateDistance lat2 lon2 lat1 lon1 := by
  simp only [calculateDistance]
  have e1 : (lat1 - lat2) * Real.pi / 180 / 2 = -((lat2 - lat1) * Real.pi / 180 / 2) := by
    ring
  have e2 : (lon1 - lon2) * Real.pi / 180 / 2 = -((lon2 - lon1) * Real.pi / 180 / 2) := by
    ring
  rw [e1, e2, Real.sin_neg, Real.sin_neg]
  ring_nf

theorem calculateDistance_zero_one :
    calculateDistance 0 0 0 1 = 6371e3 * (2 * (Real.pi / 360)) := by
  have hs : 0 ≤ Real.sin (Real.pi / 360) :=
    Real.sin_nonneg_of_nonneg_of_le_pi (by positivity) (by nlinarith [Real.pi_pos])
  have hc : 0 ≤ Real.cos (Real.pi / 360) :=
    Real.cos_nonneg_of_mem_Icc ⟨by nlinarith [Real.pi_pos], by nlinarith [Real.pi_pos]⟩
  have hcs : 1 - Real.sin (Real.pi / 360) * Real.sin (Real.pi / 360) =
      Real.cos (Real.pi / 360) * Real.cos (Real.pi / 360) := by
    nlinarith [Real.sin_sq_add_cos_sq (Real.pi / 360)]
  simp only [calculateDistance]
  norm_num
  have h2 : Real.pi / 180 / 2 = Real.pi / 360 := by ring
  rw [h2, Real.sqrt_mul_self hs, hcs, Real.sqrt_mul_self hc]
  exact atan2_sin_cos (by nlinarith [Real.pi_pos]) (by nlinarith [Real.pi_pos])

theorem calculateDistance_eq_haversineSpec (lat1 lon1 lat2 lon2 : ℝ) :
    calculateDistance lat1 lon1 lat2 lon2 = haversineSpec lat1 lon1 lat2 lon2 := by
  simp only [calculateDistance, haversineSpec]
  have e1 : Real.pi / 180 * lat1 = lat1 * Real.pi / 180 := by ring
  have e2 : Real.pi / 180 * lat2 = lat2 * Real.pi / 180 := by ring
  have e3 : Real.pi / 180 * (lat2 - lat1) / 2 = (lat2 - lat1) * Real.pi / 180 / 2 := by
    ring
  have e4 : Real.pi / 180 * (lon2 - lon1) / 2 = (lon2 - lon1) * Real.pi / 180 / 2 := by
    ring
  rw [e1, e2, e3, e4]
  norm_num [pow_two]
  ring_nf

theorem calculateDistance_zero_one_bound :
    |calculateDistance 0 0 0 1 - 111195| ≤ 50 := by
  rw [calculateDistance_zero_one, abs_le]
  have h1 := Real.pi_gt_d6
  have h2 := Real.pi_lt_d6
  norm_num at h1 h2 ⊢
  constructor <;> nlinarith

theorem calculateDistance_zero_one_ge_ten : calculateDistance 0 0 0 1 ≥ 10 := by
  have hb := calculateDistance_zero_one_bound
  rw [abs_le] at hb
  linarith [hb.1]

theorem handleError_watchId (s : TrackerState) (e : GeoErrorCode) :
    (handleError s e).1.watchId = s.watchId := by
  cases e <;> rfl

theorem handleError_isTracking (s : TrackerState) (e : GeoErrorCode) :
    (handleError s e).1.isTracking = s.isTracking := by
  cases e <;> rfl

/-- Claim C1: with a last sample present, the Position Filter accepts a
candidate exactly when the haversine distance (sphere of radius 6,371,000 m,
computed by the spec's formula) between the last and candidate coordinates is
at least the threshold; the source's calculateDistance coincides everywhere
with the spec's formula. The filter is a pure function of
(last, candidate, threshold), which in this embedding is inherent in its
type. -/
theorem claim_C1 :
    (∀ lat1 lon1 lat2 lon2 : ℝ,
        calculateDistance lat1 lon1 lat2 lon2 = haversineSpec lat1 lon1 lat2 lon2)
    ∧ ∀ (lp cand : Position) (m : ℝ),
        shouldAccept (some lp) cand m ↔
          haversineSpec lp.coords.latitude lp.coords.longitude
            cand.coords.latitude cand.coords.longitude ≥ m := by
  refine ⟨calculateDistance_eq_haversineSpec, fun lp cand m => ?_⟩
  simp only [shouldAccept, calculateDistance_eq_haversineSpec]

/-- Claim C2: with no last accepted sample, the Position Filter accepts any
candidate at any threshold. -/
theorem claim_C2 : ∀ (cand : Position) (m : ℝ), shouldAccept none cand m :=
  fun _ _ => trivial

/-- Claim C3: the haversine distance is symmetric, the distance from a point
to itself is exactly zero, and consequently the Position Filter with a
non-empty last sample rejects any candidate at coincident coordinates
whenever the threshold is positive. -/
theorem claim_C3 :
    (∀ lat1 lon1 lat2 lon2 : ℝ,
        calculateDistance lat1 lon1 lat2 lon2 = calculateDistance lat2 lon2 lat1 lon1)
    ∧ (∀ lat lon : ℝ, calculateDistance lat lon lat lon = 0)
    ∧ ∀ (lp cand : Position) (m : ℝ),
        lp.coords.latitude = cand.coords.latitude →
        lp.coords.longitude = cand.coords.longitude →
        0 < m → ¬ shouldAccept (some lp) cand m := by
  refine ⟨calculateDistance_symm, calculateDistance_self, fun lp cand m h1 h2 hm => ?_⟩
  simp only [shouldAccept, h1, h2, calculateDistance_self]
  intro h
  exact hm.not_le h

/-- Witness for claim C3 at two samples sharing the coordinates (48, 2) and
threshold 1. -/
theorem claim_C3_witness :
    (⟨⟨48, 2, 5, none, none, none, none⟩, 0⟩ : Position).coords.latitude =
      (⟨⟨48, 2, 7, none, none, none, none⟩, 60⟩ : Position).coords.latitude
    ∧ (⟨⟨48, 2, 5, none, none, none, none⟩, 0⟩ : Position).coords.longitude =
      (⟨⟨48, 2, 7, none, none, none, none⟩, 60⟩ : Position).coords.longitude
    ∧ (0:ℝ) < 1
    ∧ ¬ shouldAccept (some ⟨⟨48, 2, 5, none, none, none, none⟩, 0⟩)
        ⟨⟨48, 2, 7, none, none, none, none⟩, 60⟩ 1 :=
  ⟨rfl, rfl, by norm_num, claim_C3.2.2 _ _ 1 rfl rfl (by norm_num)⟩

/-- Claim C4: the haversine distance between (0, 0) and (0, 1) is within 50
meters of 111,195 meters, and with those two fixtures as last/candidate and
threshold 10 the Position Filter accepts. -/
theorem claim_C4 :
    |calculateDistance 0 0 0 1 - 111195| ≤ 50 ∧ shouldAccept (some p00) p01 10 := by
  refine ⟨calculateDistance_zero_one_bound, ?_⟩
  show calculateDistance 0 0 0 1 ≥ 10
  exact calculateDistance_zero_one_ge_ten

/-- Claim C5: from a non-tracking state on a supported platform, a first
startTracking whose initial fix succeeds returns true, and a second
startTracking right after it returns true as well, leaves the state exactly
as the first call left it (no second subscription is opened), and the single
watch handle is the one the first call registered. -/
theorem claim_C5 (s : TrackerState) (env env2 : BrowserEnv) (pos : Position)
    (wId iId wId2 iId2 : ℕ) (getPos2 : Position ⊕ GeoErrorCode)
    (hIdle : s.isTracking = false) (hGeo : env.geoSupported = true) :
    (startTracking s env (Sum.inl pos) wId iId).2.1 = true
    ∧ (startTracking (startTracking s env (Sum.inl pos) wId iId).1
        env2 getPos2 wId2 iId2).2.1 = true
    ∧ (startTracking (startTracking s env (Sum.inl pos) wId iId).1
        env2 getPos2 wId2 iId2).1 = (startTracking s env (Sum.inl pos) wId iId).1
    ∧ (startTracking s env (Sum.inl pos) wId iId).1.watchId = some wId := by
  rcases env with ⟨g, q⟩
  rw [show (BrowserEnv.mk g q).geoSupported = g from rfl] at hGeo
  subst hGeo
  by_cases hd : s.initDone <;> cases q <;>
    refine ⟨?_, ?_, ?_, ?_⟩ <;>
      simp [startTracking, initTracker, hIdle, hd]

/-- Witness for claim C5: starting twice from a fresh tracker on a granting
platform. -/
theorem claim_C5_witness :
    (initialState defaultOptions).isTracking = false
    ∧ (BrowserEnv.mk true (some PermState.granted)).geoSupported = true
    ∧ (startTracking (initialState defaultOptions)
        (BrowserEnv.mk true (some PermState.granted)) (Sum.inl p00) 1 2).2.1 = true
    ∧ (startTracking (startTracking (initialState defaultOptions)
          (BrowserEnv.mk true (some PermState.granted)) (Sum.inl p00) 1 2).1
        (BrowserEnv.mk true none) (Sum.inr GeoErrorCode.timeout) 3 4).2.1 = true
    ∧ (startTracking (startTracking (initialState defaultOptions)
          (BrowserEnv.mk true (some PermState.granted)) (Sum.inl p00) 1 2).1
        (BrowserEnv.mk true none) (Sum.inr GeoErrorCode.timeout) 3 4).1
      = (startTracking (initialState defaultOptions)
          (BrowserEnv.mk true (some PermState.granted)) (Sum.inl p00) 1 2).1
    ∧ (startTracking (initialState defaultOptions)
        (BrowserEnv.mk true (some PermState.granted)) (Sum.inl p00) 1 2).1.watchId
      = some 1 := by
  have h := claim_C5 (initialState defaultOptions)
    (BrowserEnv.mk true (some PermState.granted)) (BrowserEnv.mk true none) p00
    1 2 3 4 (Sum.inr GeoErrorCode.timeout) rfl rfl
  exact ⟨rfl, rfl, h.1, h.2.1, h.2.2.1, h.2.2.2⟩

/-- Claim C6: calling stopTracking on an Idle tracker (not tracking, no watch
handle, no interval handle) leaves the whole state unchanged, and stopping is
idempotent from any state. -/
theorem claim_C6 (s : TrackerState) (h1 : s.isTracking = false)
    (h2 : s.watchId = none) (h3 : s.intervalId = none) :
    stopTracking s = s
    ∧ ∀ t : TrackerState, stopTracking (stopTracking t) = stopTracking t := by
  constructor
  · rcases s with ⟨o, w, lp, tr, uc, ini, ps, iv⟩
    simp_all [stopTracking]
  · intro t
    rcases t with ⟨o, w, lp, tr, uc, ini, ps, iv⟩
    cases w <;> cases iv <;> simp [stopTracking]

/-- Witness for claim C6 at the freshly constructed tracker. -/
theorem claim_C6_witness :
    (initialState defaultOptions).isTracking = false
    ∧ (initialState defaultOptions).watchId = none
    ∧ (initialState defaultOptions).intervalId = none
    ∧ stopTracking (initialState defaultOptions) = initialState defaultOptions :=
  ⟨rfl, rfl, rfl, (claim_C6 (initialState defaultOptions) rfl rfl rfl).1⟩

/-- Claim C7, as the code actually behaves: after stopTracking the state is
Idle (flags and handles cleared), yet a late error callback still emits a
warning notification and a late position callback that passes the filter
still emits the report and position-update notifications. The code has no
stale-callback guard, contradicting the claim that late callbacks are
ignored after stopTracking. -/
theorem claim_C7 :
    (stopTracking trackingState).isTracking = false
    ∧ (stopTracking trackingState).watchId = none
    ∧ (stopTracking trackingState).intervalId = none
    ∧ (handleError (stopTracking trackingState) GeoErrorCode.positionUnavailable).2
        = [Event.warning "Location information unavailable."]
    ∧ (handlePosition (stopTracking trackingState) p01).2
        = [Event.report p01, Event.positionUpdate p01] := by
  have hstop : stopTracking trackingState =
      { options := defaultOptions, watchId := none, lastPosition := some p00,
        isTracking := false, userConsent := true, initDone := true,
        permissionState := some PermState.granted, intervalId := none } := by
    simp [stopTracking, trackingState]
  have hacc : shouldAccept (some p00) p01 defaultOptions.minDistance := by
    show calculateDistance 0 0 0 1 ≥ 10
    exact calculateDistance_zero_one_ge_ten
  rw [hstop]
  refine ⟨rfl, rfl, rfl, rfl, ?_⟩
  simp [handlePosition, hacc]

/-- Claim C8: a PERMISSION_DENIED error received while tracking clears the
consent flag, emits exactly one warning notification, and leaves the watch
handle, the interval handle and the tracking status untouched; the handler
is total, so nothing propagates as an exception. -/
theorem claim_C8 (s : TrackerState) (hTrack : s.isTracking = true) :
    handleError s GeoErrorCode.permissionDenied
      = ({ s with userConsent := false },
        [Event.warning "Location permission denied. Please enable location services."])
    ∧ (handleError s GeoErrorCode.permissionDenied).1.watchId = s.watchId
    ∧ (handleError s GeoErrorCode.permissionDenied).1.intervalId = s.intervalId
    ∧ (handleError s GeoErrorCode.permissionDenied).1.isTracking = s.isTracking
    ∧ (handleError s GeoErrorCode.permissionDenied).2.length = 1 :=
  ⟨rfl, rfl, rfl, rfl, rfl⟩

/-- Witness for claim C8 at a concrete tracking state. -/
theorem claim_C8_witness :
    trackingState.isTracking = true
    ∧ handleError trackingState GeoErrorCode.permissionDenied
        = ({ trackingState with userConsent := false },
          [Event.warning "Location permission denied. Please enable location services."]) :=
  ⟨rfl, (claim_C8 trackingState rfl).1⟩

/-- Claim C9: the invariant "the watch handle is non-null iff the tracker is
tracking" holds in the initial state and is preserved by initialization, by
startTracking (both its success and its failure path), by stopTracking, by
the position handler and by the error handler. -/
theorem claim_C9 :
    (∀ opts, WatchInv (initialState opts))
    ∧ (∀ s env, WatchInv s → WatchInv (initTracker s env).1)
    ∧ (∀ s env getPos wId iId, WatchInv s →
        WatchInv (startTracking s env getPos wId iId).1)
    ∧ (∀ s, WatchInv s → WatchInv (stopTracking s))
    ∧ (∀ s pos, WatchInv s → WatchInv (handlePosition s pos).1)
    ∧ (∀ s e, WatchInv s → WatchInv (handleError s e).1) := by
  refine ⟨fun opts => rfl, ?_, ?_, ?_, ?_, ?_⟩
  · intro s env h
    rcases env with ⟨g, q⟩
    cases g <;> cases q <;> simpa [initTracker, WatchInv] using h
  · intro s env getPos wId iId h
    rcases s with ⟨o, w, lp, tr, uc, ini, ps, iv⟩
    rcases env with ⟨g, q⟩
    simp only [WatchInv] at h ⊢
    rcases getPos with pos | e
    · cases w <;> cases tr <;> cases ini <;> cases g <;> cases q <;>
        simp_all [startTracking, initTracker]
    · cases e <;> cases w <;> cases tr <;> cases ini <;> cases g <;> cases q <;>
        simp_all [startTracking, initTracker, handleError]
  · intro s h
    rcases s with ⟨o, w, lp, tr, uc, ini, ps, iv⟩
    cases w <;> cases iv <;> simp_all [stopTracking, WatchInv]
  · intro s pos h
    simp only [WatchInv] at h ⊢
    simp only [handlePosition]
    split <;> simpa using h
  · intro s e h
    cases e <;> simpa [handleError, WatchInv] using h

/-- Witness for claim C9 at the initial state and two operations on it. -/
theorem claim_C9_witness :
    WatchInv (initialState defaultOptions)
    ∧ WatchInv (stopTracking (initialState defaultOptions))
    ∧ WatchInv (handleError (initialState defaultOptions) GeoErrorCode.timeout).1 :=
  ⟨claim_C9.1 defaultOptions,
    claim_C9.2.2.2.1 (initialState defaultOptions) rfl,
    claim_C9.2.2.2.2.2 (initialState defaultOptions) GeoErrorCode.timeout rfl⟩

/-- Claim C10: against the api object of src/api.js, which defines no
saveLocation member, savePositionToBackend returns the failure marker false
for every sample (the thrown TypeError is caught inside, so nothing ever
reaches the caller and no report ever succeeds). -/
theorem claim_C10 :
    (∀ p : Position, savePositionToBackend windowApi p = false)
    ∧ windowApi.saveLocation = none
    ∧ ¬ ("saveLocation" ∈ windowApi.methodNames) :=
  ⟨fun _ => rfl, rfl, by decide⟩

end GPS
